import Mathlib

/-!
Verification development for the synthcity tutorial corpus.

The repository material under inspection consists of tutorial notebooks that
exercise the synthcity library: wrapping tabular datasets in data loaders,
requesting generative-model plugins from a registry, fitting them, sampling
synthetic rows, serializing models, and running benchmark evaluations.  The
library implementation itself is not part of the provided sources, so the
behavior of its call surface is modelled here from the specification text and
the tutorial documentation, while the tutorial scripts themselves (the plugin
example class and the order of library calls) are embedded directly from the
notebooks.

Tabular cells are modelled as `Option Int`, with `none` playing the role of a
missing value (NaN).
-/

namespace Synthcity

/-- A cell of a tabular dataset; `none` models a missing (NaN) value. -/
abbrev Cell := Option Int

/-- A tabular dataset: named columns and a list of rows. -/
structure DataFrame where
  columns : List String
  rows : List (List Cell)
deriving DecidableEq, Repr

/-- A dataset has missing data when some cell is `none` (NaN). -/
def DataFrame.hasMissing (df : DataFrame) : Bool :=
  df.rows.any (fun r => r.any (fun c => c.isNone))

/-- Number of rows of the dataset. -/
def DataFrame.nrows (df : DataFrame) : Nat :=
  df.rows.length

/-- Modelled from the spec: imputation (performed by an external imputer such
as hyperimpute) replaces every missing value of the dataset by a concrete
value, leaving the columns unchanged. -/
def DataFrame.impute (df : DataFrame) (v : Int) : DataFrame :=
  ⟨df.columns, df.rows.map (fun r => r.map (fun c => some (c.getD v)))⟩

/-- Modelled from the spec: the data-loader wrapper around a tabular dataset,
recording the designated target, sensitive and time-to-event columns.  The
loader abstraction itself lives in the external library
(synthcity.plugins.core.dataloader) and is modelled from its call surface. -/
structure DataLoader where
  df : DataFrame
  target_column : Option String
  sensitive_columns : List String
  time_to_event_column : Option String
deriving DecidableEq, Repr

/-- Modelled from the spec: the `GenericDataLoader` constructor accepts a
dataframe plus the `target_column` and `sensitive_columns` keyword arguments;
on a valid dataframe (all designated columns present) it succeeds and records
the designated columns. -/
def GenericDataLoader (df : DataFrame) (target_column : Option String)
    (sensitive_columns : List String) : Except String DataLoader :=
  if (target_column.toList ++ sensitive_columns).all (fun c => df.columns.contains c)
  then Except.ok ⟨df, target_column, sensitive_columns, none⟩
  else Except.error "unknown column"

/-- Modelled from the spec: the `SurvivalAnalysisDataLoader` constructor
additionally accepts a `time_to_event_column` keyword argument. -/
def SurvivalAnalysisDataLoader (df : DataFrame) (target_column : String)
    (time_to_event_column : String) : Except String DataLoader :=
  if [target_column, time_to_event_column].all (fun c => df.columns.contains c)
  then Except.ok ⟨df, some target_column, [], some time_to_event_column⟩
  else Except.error "unknown column"

/-- Comparison operators appearing in constraint rules, e.g.
("worst radius", ">", 15). -/
inductive COp
  | lt
  | le
  | gt
  | ge
  | eq
deriving DecidableEq, Repr

/-- A single constraint rule (column, operator, threshold). -/
structure Rule where
  col : String
  op : COp
  val : Int
deriving DecidableEq, Repr

/-- A set of constraint rules, as built by `Constraints(rules=[...])`. -/
structure Constraints where
  rules : List Rule
deriving DecidableEq, Repr

/-- Whether a cell satisfies a comparison against a threshold; a missing cell
satisfies nothing. -/
def cellSatisfies (op : COp) (c : Cell) (v : Int) : Bool :=
  match c with
  | none => false
  | some x =>
    match op with
    | COp.lt => decide (x < v)
    | COp.le => decide (x ≤ v)
    | COp.gt => decide (v < x)
    | COp.ge => decide (v ≤ x)
    | COp.eq => decide (x = v)

/-- Fetch the cell of a row at a named column. -/
def getCell (cols : List String) (row : List Cell) (col : String) : Cell :=
  match cols.findIdx? (fun c => c = col) with
  | some i => row.getD i none
  | none => none

/-- Whether a row satisfies one constraint rule. -/
def rowSatisfies (cols : List String) (row : List Cell) (ru : Rule) : Bool :=
  cellSatisfies ru.op (getCell cols row ru.col) ru.val

/-- Whether every row of a table satisfies every rule of the constraint set. -/
def Constraints.check (cs : Constraints) (cols : List String)
    (rows : List (List Cell)) : Bool :=
  rows.all (fun r => cs.rules.all (rowSatisfies cols r))

/-- Pointwise minimum on optional values (used to fold a column). -/
def optMin (a : Option Int) (b : Option Int) : Option Int :=
  match a, b with
  | none, b => b
  | some x, none => some x
  | some x, some y => some (min x y)

/-- Pointwise maximum on optional values (used to fold a column). -/
def optMax (a : Option Int) (b : Option Int) : Option Int :=
  match a, b with
  | none, b => b
  | some x, none => some x
  | some x, some y => some (max x y)

/-- The cells of the i-th column of a dataset. -/
def columnCells (df : DataFrame) (i : Nat) : List Cell :=
  df.rows.map (fun r => r.getD i none)

/-- Minimum present value of a list of cells. -/
def colMinVal (cells : List Cell) : Option Int :=
  cells.foldr optMin none

/-- Maximum present value of a list of cells. -/
def colMaxVal (cells : List Cell) : Option Int :=
  cells.foldr optMax none

/-- Modelled from the spec: the schema constraints captured from a training
set — every column of the synthetic data must stay within the observed
range of the training data.  This models the constraint set that the tutorial
says the generated data must satisfy when no explicit constraints are given. -/
def trainConstraints (df : DataFrame) : Constraints :=
  ⟨(df.columns.enum.map (fun ic =>
      match colMinVal (columnCells df ic.1), colMaxVal (columnCells df ic.1) with
      | some lo, some hi => [⟨ic.2, COp.ge, lo⟩, ⟨ic.2, COp.le, hi⟩]
      | _, _ => ([] : List Rule))).flatten⟩

/-- The internal state recorded by a successful fit: the training columns
(whose count is the `features_count` stored by the tutorial's example plugin)
and the schema constraints of the training set. -/
structure FitState where
  cols : List String
  schema : Constraints
deriving DecidableEq, Repr

/-- First-order description of a plugin's internal sampler (its `_generate`
behavior).  `constRow` emits copies of a fixed row; `zeroOne` emits the
pseudo-random 0/1 matrix of the tutorial's `ZeroOnePlugin` example. -/
inductive SamplerSpec
  | constRow (row : List Cell)
  | zeroOne (seed : Nat)
deriving DecidableEq, Repr

/-- One pseudo-random bit, modelling `np.random.randint(0, 2)` for entry
(i, j) of a matrix with `fc` columns. -/
def zeroOneBit (seed : Nat) (i : Nat) (j : Nat) (fc : Nat) : Nat :=
  (seed + i * fc + j) % 2

/-- Raw rows produced by a sampler, for `fc` features and `count` samples. -/
def SamplerSpec.rawRows : SamplerSpec → Nat → Nat → List (List Cell)
  | SamplerSpec.constRow row, _, count => List.replicate count row
  | SamplerSpec.zeroOne seed, fc, count =>
      (List.range count).map (fun i =>
        (List.range fc).map (fun j => some ((zeroOneBit seed i j fc : Nat) : Int)))

/-- Modelled from the spec: a plugin instance of the external library.  The
static methods `name()` and `type()` become the fields `pname` and `ptype`;
the `_generate` behavior is the first-order `sampler`; `fitState` is `none`
until the plugin has been fitted. -/
structure Plugin where
  pname : String
  ptype : String
  sampler : SamplerSpec
  fitState : Option FitState
deriving DecidableEq, Repr

/-- The internal method invoked by the public `fit` on each training set: it
records the training columns and the training-set schema constraints. -/
def Plugin._fit (p : Plugin) (X : DataLoader) : Plugin :=
  { p with fitState := some ⟨X.df.columns, trainConstraints X.df⟩ }

/-- Modelled from the spec: the public `fit` raises an error when the input
data contains missing values (inputs must be pre-imputed) and otherwise
invokes the internal `_fit` on the training set. -/
def Plugin.fit (p : Plugin) (X : DataLoader) : Except String Plugin :=
  if X.df.hasMissing then Except.error "nan in the input data"
  else Except.ok (p._fit X)

/-- The internal method invoked by the public `generate`: produce the raw
synthetic table from the plugin's sampler. -/
def Plugin._generate (p : Plugin) (count : Nat) (st : FitState) : DataFrame :=
  ⟨st.cols, SamplerSpec.rawRows p.sampler st.cols.length count⟩

/-- Modelled from the spec: the public `generate` requires a fitted plugin,
invokes the internal `_generate`, and enforces that the generated data
satisfies the training-set constraints — or the constraints provided at
inference time, when given.  If the generated dataframe fails to comply, an
exception is raised instead of returning non-compliant data. -/
def Plugin.generate (p : Plugin) (count : Nat)
    (constraints : Option Constraints) : Except String DataLoader :=
  match p.fitState with
  | none => Except.error "Plugin must be fitted before generate"
  | some st =>
    if Constraints.check (constraints.getD st.schema)
        (p._generate count st).columns (p._generate count st).rows
    then Except.ok ⟨p._generate count st, none, [], none⟩
    else Except.error "ConstraintsViolation"

/-- Whether an `Except` result is a success. -/
def isOk {α : Type} : Except String α → Bool
  | Except.ok _ => true
  | Except.error _ => false

/-- Keyword arguments passed when instantiating a plugin, e.g.
`n_iter=100`. -/
abbrev Kwargs := List (String × Int)

/-- A hyperparameter distribution, as built by
`IntegerDistribution(name=..., low=..., high=..., step=...)` in the
tutorial. -/
structure Distribution where
  dname : String
  low : Int
  high : Int
  step : Int
deriving DecidableEq, Repr

/-- Modelled from the spec: a plugin class of the external library's lookup
table.  It must provide the static methods `name()` (`cname`), `type()`
(`ctype`) and `hyperparameter_space()`, and a constructor `build` turning
keyword arguments into an instance; an instance's static `name()` agrees
with the class's. -/
structure PluginClass where
  cname : String
  ctype : String
  hyperparameter_space : List Distribution
  build : Kwargs → Plugin
  build_name : ∀ kw : Kwargs, (build kw).pname = cname

/-- Modelled from the spec: the plugin registry (lookup table) mapping names
to generative-model classes. -/
abbrev Registry := List (String × PluginClass)

/-- Modelled from the spec: `generators.add(name, PluginClass)` registers a
class in the lookup table under the given name. -/
def Registry.add (r : Registry) (n : String) (c : PluginClass) : Registry :=
  (n, c) :: r

/-- Modelled from the spec: `generators.list()` lists the registered
names. -/
def Registry.list (r : Registry) : List String :=
  r.map Prod.fst

/-- Look up the class registered under a name (first match wins). -/
def Registry.lookup : Registry → String → Option PluginClass
  | [], _ => none
  | (m, c) :: rest, n => if m = n then some c else Registry.lookup rest n

/-- Modelled from the spec: `Plugins().get(name, **kwargs)` instantiates the
generative-model class registered under the name, or raises when the name is
unknown. -/
def Registry.get (r : Registry) (n : String) (kw : Kwargs) : Except String Plugin :=
  match Registry.lookup r n with
  | some c => Except.ok (c.build kw)
  | none => Except.error "invalid plugin name"

/-- A registry is well-formed when every class is registered under its own
static name. -/
def RegistryWF (r : Registry) : Prop :=
  ∀ p ∈ r, p.1 = p.2.cname

/-- Extract a natural-number keyword argument with a default. -/
def natKwarg (kw : Kwargs) (k : String) : Nat :=
  ((kw.lookup k).getD 0).toNat

/-- The tutorial's example plugin instance: name "zero_one", type "debug",
sampling a pseudo-random 0/1 matrix (embedded from the `ZeroOnePlugin` class
of tutorial 1). -/
def ZeroOnePlugin (seed : Nat) : Plugin :=
  ⟨"zero_one", "debug", SamplerSpec.zeroOne seed, none⟩

/-- The `ZeroOnePlugin` class of tutorial 1 packaged as a registrable plugin
class: `name()` returns "zero_one", `type()` returns "debug", and
`hyperparameter_space()` returns the empty list. -/
def ZeroOnePluginClass : PluginClass :=
  ⟨"zero_one", "debug", [], fun kw => ZeroOnePlugin (natKwarg kw "seed"),
   fun _ => rfl⟩

/-- The five metric categories of a benchmark report. -/
inductive Category
  | sanity
  | stats
  | performance
  | detection
  | privacy
deriving DecidableEq, Repr

/-- The benchmark metric table of tutorial 0: every metric name together with
the category it belongs to. -/
def benchmarkMetrics : List (Category × String) :=
  [(Category.sanity, "data_mismatch.score"),
   (Category.sanity, "common_rows_proportion.score"),
   (Category.sanity, "nearest_syn_neighbor_distance.mean"),
   (Category.sanity, "close_values_probability.score"),
   (Category.sanity, "distant_values_probability.score"),
   (Category.stats, "jensenshannon_dist.marginal"),
   (Category.stats, "chi_squared_test.marginal"),
   (Category.stats, "feature_corr.joint"),
   (Category.stats, "inv_kl_divergence.marginal"),
   (Category.stats, "ks_test.marginal"),
   (Category.stats, "max_mean_discrepancy.joint"),
   (Category.stats, "prdc.precision"),
   (Category.stats, "prdc.recall"),
   (Category.stats, "prdc.density"),
   (Category.stats, "prdc.coverage"),
   (Category.stats, "alpha_precision.delta_precision_alpha_OC"),
   (Category.stats, "alpha_precision.delta_coverage_beta_OC"),
   (Category.stats, "alpha_precision.authenticity_OC"),
   (Category.performance, "linear_model.gt.aucroc"),
   (Category.performance, "linear_model.syn_id.aucroc"),
   (Category.performance, "linear_model.syn_ood.aucroc"),
   (Category.performance, "mlp.gt.aucroc"),
   (Category.performance, "mlp.syn_id.aucroc"),
   (Category.performance, "mlp.syn_ood.aucroc"),
   (Category.performance, "xgb.gt.aucroc"),
   (Category.performance, "xgb.syn_id.aucroc"),
   (Category.performance, "xgb.syn_ood.aucroc"),
   (Category.performance, "feat_rank_distance.corr"),
   (Category.performance, "feat_rank_distance.pvalue"),
   (Category.detection, "detection_xgb.mean"),
   (Category.detection, "detection_mlp.mean"),
   (Category.detection, "detection_gmm.mean"),
   (Category.privacy, "delta-presence.score"),
   (Category.privacy, "k-anonymization.gt"),
   (Category.privacy, "k-anonymization.syn"),
   (Category.privacy, "k-map.score"),
   (Category.privacy, "distinct l-diversity.gt"),
   (Category.privacy, "distinct l-diversity.syn"),
   (Category.privacy, "identifiability_score.score")]

/-- One entry of a benchmark score report: the fitted plugin the entry was
computed from and the evaluated metrics. -/
structure BenchReport where
  plugin : Plugin
  metrics : List (Category × String)
deriving DecidableEq, Repr

/-- Modelled from the spec: `Benchmarks.evaluate` takes a list of
(label, plugin-name, kwargs) tuples together with a data loader plus options
(`synthetic_size`, `repeats`), fits each named plugin configured with its
kwargs, and returns a score report with one entry per supplied label,
covering the benchmark metric table. -/
def Benchmarks.evaluate : Registry → List (String × String × Kwargs) →
    DataLoader → Nat → Nat → Except String (List (String × BenchReport))
  | _, [], _, _, _ => Except.ok []
  | r, (label, pn, kw) :: rest, l, ssize, reps =>
    match Registry.get r pn kw with
    | Except.error e => Except.error e
    | Except.ok p =>
      match p.fit l with
      | Except.error e => Except.error e
      | Except.ok fitted =>
        match Benchmarks.evaluate r rest l ssize reps with
        | Except.error e => Except.error e
        | Except.ok tail => Except.ok ((label, ⟨fitted, benchmarkMetrics⟩) :: tail)

/-- Modelled from the spec: a serialized model buffer is a flat sequence of
primitive tokens (the bytes-buffer abstraction of
synthcity.utils.serialization). -/
inductive Token
  | tstr (s : String)
  | tint (i : Int)
  | tnat (n : Nat)
deriving DecidableEq, Repr

/-- Encode a string field. -/
def encStr (s : String) : List Token :=
  [Token.tstr s]

/-- Decode a string field. -/
def decStr : List Token → Option (String × List Token)
  | Token.tstr s :: r => some (s, r)
  | _ => none

/-- Encode an integer field. -/
def encInt (i : Int) : List Token :=
  [Token.tint i]

/-- Decode an integer field. -/
def decInt : List Token → Option (Int × List Token)
  | Token.tint i :: r => some (i, r)
  | _ => none

/-- Encode a natural-number field. -/
def encNat (n : Nat) : List Token :=
  [Token.tnat n]

/-- Decode a natural-number field. -/
def decNat : List Token → Option (Nat × List Token)
  | Token.tnat n :: r => some (n, r)
  | _ => none

/-- Encode an optional field with a tag. -/
def encOpt {α : Type} (enc : α → List Token) : Option α → List Token
  | none => [Token.tnat 0]
  | some a => Token.tnat 1 :: enc a

/-- Decode an optional field. -/
def decOpt {α : Type} (dec : List Token → Option (α × List Token)) :
    List Token → Option (Option α × List Token)
  | Token.tnat 0 :: r => some (none, r)
  | Token.tnat 1 :: r =>
    match dec r with
    | some (a, r1) => some (some a, r1)
    | none => none
  | _ => none

/-- Concatenated encodings of the elements of a list. -/
def encListAux {α : Type} (enc : α → List Token) : List α → List Token
  | [] => []
  | x :: xs => enc x ++ encListAux enc xs

/-- Encode a list field: length prefix, then the elements. -/
def encList {α : Type} (enc : α → List Token) (xs : List α) : List Token :=
  Token.tnat xs.length :: encListAux enc xs

/-- Decode a known number of elements. -/
def decListAux {α : Type} (dec : List Token → Option (α × List Token)) :
    Nat → List Token → Option (List α × List Token)
  | 0, ts => some ([], ts)
  | Nat.succ n, ts =>
    match dec ts with
    | some (a, ts1) =>
      match decListAux dec n ts1 with
      | some (as, ts2) => some (a :: as, ts2)
      | none => none
    | none => none

/-- Decode a list field. -/
def decList {α : Type} (dec : List Token → Option (α × List Token)) :
    List Token → Option (List α × List Token)
  | Token.tnat n :: ts => decListAux dec n ts
  | _ => none

/-- Encode a comparison operator. -/
def encCOp : COp → List Token
  | COp.lt => [Token.tnat 0]
  | COp.le => [Token.tnat 1]
  | COp.gt => [Token.tnat 2]
  | COp.ge => [Token.tnat 3]
  | COp.eq => [Token.tnat 4]

/-- Decode a comparison operator. -/
def decCOp : List Token → Option (COp × List Token)
  | Token.tnat 0 :: r => some (COp.lt, r)
  | Token.tnat 1 :: r => some (COp.le, r)
  | Token.tnat 2 :: r => some (COp.gt, r)
  | Token.tnat 3 :: r => some (COp.ge, r)
  | Token.tnat 4 :: r => some (COp.eq, r)
  | _ => none

/-- Encode a constraint rule. -/
def encRule (ru : Rule) : List Token :=
  encStr ru.col ++ encCOp ru.op ++ encInt ru.val

/-- Decode a constraint rule. -/
def decRule (ts : List Token) : Option (Rule × List Token) :=
  match decStr ts with
  | some (c, ts1) =>
    match decCOp ts1 with
    | some (o, ts2) =>
      match decInt ts2 with
      | some (v, ts3) => some (⟨c, o, v⟩, ts3)
      | none => none
    | none => none
  | none => none

/-- Encode a (possibly missing) cell. -/
def encCell (c : Cell) : List Token :=
  encOpt encInt c

/-- Decode a cell. -/
def decCell (ts : List Token) : Option (Cell × List Token) :=
  decOpt decInt ts

/-- Encode a sampler description. -/
def encSampler : SamplerSpec → List Token
  | SamplerSpec.constRow row => Token.tnat 0 :: encList encCell row
  | SamplerSpec.zeroOne seed => [Token.tnat 1, Token.tnat seed]

/-- Decode a sampler description. -/
def decSampler : List Token → Option (SamplerSpec × List Token)
  | Token.tnat 0 :: ts =>
    match decList decCell ts with
    | some (row, ts1) => some (SamplerSpec.constRow row, ts1)
    | none => none
  | Token.tnat 1 :: Token.tnat seed :: ts => some (SamplerSpec.zeroOne seed, ts)
  | _ => none

/-- Encode a fit state. -/
def encFitState (st : FitState) : List Token :=
  encList encStr st.cols ++ encList encRule st.schema.rules

/-- Decode a fit state. -/
def decFitState (ts : List Token) : Option (FitState × List Token) :=
  match decList decStr ts with
  | some (cols, ts1) =>
    match decList decRule ts1 with
    | some (rules, ts2) => some (⟨cols, ⟨rules⟩⟩, ts2)
    | none => none
  | none => none

/-- Modelled from the spec: `save` serializes a model into a flat buffer. -/
def save (p : Plugin) : List Token :=
  encStr p.pname ++ encStr p.ptype ++ encSampler p.sampler ++
    encOpt encFitState p.fitState

/-- Decode a plugin from a buffer, returning the remaining tokens. -/
def decPlugin (ts : List Token) : Option (Plugin × List Token) :=
  match decStr ts with
  | some (pn, ts1) =>
    match decStr ts1 with
    | some (pt, ts2) =>
      match decSampler ts2 with
      | some (sm, ts3) =>
        match decOpt decFitState ts3 with
        | some (fs, ts4) => some (⟨pn, pt, sm, fs⟩, ts4)
        | none => none
      | none => none
    | none => none
  | none => none

/-- Modelled from the spec: `load` reconstructs a model from a buffer,
requiring the whole buffer to be consumed. -/
def load (ts : List Token) : Option Plugin :=
  match decPlugin ts with
  | some (p, []) => some p
  | _ => none

/-- One library call of a tutorial script, on a named notebook variable. -/
inductive Event
  | get (v : String) (plugin : String)
  | fit (v : String)
  | generate (v : String)
  | plot (v : String)
  | save (v : String)
  | load (v : String)
  | benchmark
deriving DecidableEq, Repr

/-- Scan a tutorial trace with an environment mapping each bound plugin
variable to whether it has been fitted: `get` binds an unfitted plugin,
`fit` requires a bound plugin and marks it fitted, `generate` requires a
fitted plugin, `load` binds an already-fitted (deserialized) model. -/
def scanEvents : List (String × Bool) → List Event → Bool
  | _, [] => true
  | env, Event.get v _ :: rest => scanEvents ((v, false) :: env) rest
  | env, Event.fit v :: rest =>
      (env.lookup v).isSome && scanEvents ((v, true) :: env) rest
  | env, Event.generate v :: rest =>
      (env.lookup v == some true) && scanEvents env rest
  | env, Event.load v :: rest => scanEvents ((v, true) :: env) rest
  | env, _ :: rest => scanEvents env rest

/-- A trace is well-ordered when every plugin is requested from the registry
before it is fitted and fitted before it generates. -/
def fitBeforeGenerate (t : List Event) : Bool :=
  scanEvents [] t

/-- Tutorial 0 (basic examples): the sequence of library calls. -/
def tutorial0Trace : List Event :=
  [Event.get "syn_model" "marginal_distributions", Event.fit "syn_model",
   Event.generate "syn_model",
   Event.get "syn_model" "adsgan", Event.fit "syn_model",
   Event.generate "syn_model",
   Event.save "syn_model", Event.load "reloaded",
   Event.plot "syn_model", Event.benchmark]

/-- Tutorial 1 (add a new plugin): the sequence of library calls. -/
def tutorial1Trace : List Event :=
  [Event.get "gen" "zero_one", Event.fit "gen", Event.generate "gen",
   Event.get "gen" "sdv_ctgan", Event.fit "gen", Event.generate "gen",
   Event.generate "gen"]

/-- Tutorial 2 (benchmarks): the sequence of library calls. -/
def tutorial2Trace : List Event :=
  [Event.benchmark]

/-- Tutorial 3 (survival analysis): the sequence of library calls. -/
def tutorial3Trace : List Event :=
  [Event.get "syn_model" "survival_gan", Event.fit "syn_model",
   Event.generate "syn_model",
   Event.get "syn_model" "survival_gan", Event.fit "syn_model",
   Event.generate "syn_model",
   Event.save "syn_model", Event.load "reloaded",
   Event.plot "syn_model", Event.benchmark]

/-- Tutorial 4 (time-series and time-series survival data, stored in the
same source file as tutorial 5): the sequence of library calls. -/
def tutorial4Trace : List Event :=
  [Event.get "syn_model" "timegan", Event.fit "syn_model",
   Event.generate "syn_model", Event.plot "syn_model", Event.benchmark]

/-- Tutorial 5 (differential privacy): the sequence of library calls. -/
def tutorial5Trace : List Event :=
  [Event.get "syn_model" "dpgan", Event.fit "syn_model",
   Event.generate "syn_model", Event.benchmark, Event.benchmark]

/-- Tutorial 6 (time series): the sequence of library calls. -/
def tutorial6Trace : List Event :=
  [Event.get "syn_model" "timegan", Event.fit "syn_model",
   Event.generate "syn_model", Event.benchmark]

/-- Tutorial 7 (image generation): the sequence of library calls. -/
def tutorial7Trace : List Event :=
  [Event.get "generator" "image_cgan", Event.fit "generator",
   Event.generate "generator", Event.generate "generator", Event.benchmark]

/-- Tutorial 8 (hyperparameter optimization): the sequence of library calls
— the plugin class is requested from the registry, an instance is fitted,
and all generation happens inside `Benchmarks.evaluate`. -/
def tutorial8Trace : List Event :=
  [Event.get "plugin" "tvae", Event.fit "plugin",
   Event.benchmark, Event.benchmark, Event.benchmark]

/-- Tutorial 9 (missing data): the sequence of library calls — the first fit
is attempted on data with missing values (and raises), then a fresh plugin is
fitted on the imputed data and generates. -/
def tutorial9Trace : List Event :=
  [Event.get "syn_model" "ctgan", Event.fit "syn_model",
   Event.get "syn_model" "ctgan", Event.fit "syn_model",
   Event.generate "syn_model", Event.plot "syn_model"]

/-- All tutorial workflows of the corpus, as call traces. -/
def allTutorialTraces : List (List Event) :=
  [tutorial0Trace, tutorial1Trace, tutorial2Trace, tutorial3Trace,
   tutorial4Trace, tutorial5Trace, tutorial6Trace, tutorial7Trace,
   tutorial8Trace, tutorial9Trace]

/-! Roundtrip lemmas for the serialization codec. -/

theorem decStr_enc (s : String) (r : List Token) :
    decStr (encStr s ++ r) = some (s, r) := rfl

theorem decInt_enc (i : Int) (r : List Token) :
    decInt (encInt i ++ r) = some (i, r) := rfl

theorem decOpt_enc {α : Type} (enc : α → List Token)
    (dec : List Token → Option (α × List Token))
    (hdec : ∀ a r, dec (enc a ++ r) = some (a, r)) (o : Option α)
    (r : List Token) : decOpt dec (encOpt enc o ++ r) = some (o, r) := by
  cases o with
  | none => rfl
  | some a => simp [encOpt, decOpt, hdec]

theorem decListAux_enc {α : Type} (enc : α → List Token)
    (dec : List Token → Option (α × List Token))
    (hdec : ∀ a r, dec (enc a ++ r) = some (a, r)) :
    ∀ (xs : List α) (r : List Token),
      decListAux dec xs.length (encListAux enc xs ++ r) = some (xs, r) := by
  intro xs
  induction xs with
  | nil => intro r; rfl
  | cons x xs ih =>
    intro r
    simp only [encListAux, List.length_cons, List.append_assoc, decListAux,
      hdec, ih]

theorem decList_enc {α : Type} (enc : α → List Token)
    (dec : List Token → Option (α × List Token))
    (hdec : ∀ a r, dec (enc a ++ r) = some (a, r)) (xs : List α)
    (r : List Token) : decList dec (encList enc xs ++ r) = some (xs, r) := by
  simp [encList, decList, decListAux_enc enc dec hdec]

theorem decCOp_enc (o : COp) (r : List Token) :
    decCOp (encCOp o ++ r) = some (o, r) := by
  cases o <;> rfl

theorem decRule_enc (ru : Rule) (r : List Token) :
    decRule (encRule ru ++ r) = some (ru, r) := by
  simp [encRule, decRule, List.append_assoc, decStr_enc, decCOp_enc, decInt_enc]

theorem decCell_enc (c : Cell) (r : List Token) :
    decCell (encCell c ++ r) = some (c, r) := by
  simp [encCell, decCell, decOpt_enc encInt decInt decInt_enc]

theorem decSampler_enc (s : SamplerSpec) (r : List Token) :
    decSampler (encSampler s ++ r) = some (s, r) := by
  cases s with
  | constRow row =>
    simp [encSampler, decSampler, decList_enc encCell decCell decCell_enc]
  | zeroOne seed => rfl

theorem decFitState_enc (st : FitState) (r : List Token) :
    decFitState (encFitState st ++ r) = some (st, r) := by
  simp [encFitState, decFitState, List.append_assoc,
    decList_enc encStr decStr decStr_enc, decList_enc encRule decRule decRule_enc]

theorem decPlugin_enc (p : Plugin) (r : List Token) :
    decPlugin (save p ++ r) = some (p, r) := by
  simp [save, decPlugin, List.append_assoc, decStr_enc, decSampler_enc,
    decOpt_enc encFitState decFitState decFitState_enc]

/-- C7: for every model, `save` produces a flat buffer and `load` of that
buffer reconstructs the very same model; in particular the reloaded model's
`name()` equals the original's, so save followed by load is a round-trip. -/
theorem save_load_roundtrip (p : Plugin) :
    load (save p) = some p ∧
      (load (save p)).map Plugin.pname = some p.pname := by
  have h : decPlugin (save p) = some (p, []) := by
    have h0 := decPlugin_enc p []
    simpa using h0
  constructor
  · simp [load, h]
  · simp [load, h]

/-! Facts about fitting and generation. -/

theorem impute_no_missing (df : DataFrame) (v : Int) :
    (df.impute v).hasMissing = false := by
  simp [DataFrame.impute, DataFrame.hasMissing, List.any_map, Function.comp]

theorem rawRows_length (s : SamplerSpec) (fc : Nat) (count : Nat) :
    (SamplerSpec.rawRows s fc count).length = count := by
  cases s <;> simp [SamplerSpec.rawRows]

/-- C1: fitting a plugin on a loader whose dataset contains missing (NaN)
values raises an error, while fitting on the same dataset after all missing
values have been imputed succeeds: pre-imputed input data is a precondition
of `fit`, enforced by the library. -/
theorem fit_requires_imputed_data (p : Plugin) (l : DataLoader) (v : Int)
    (h : l.df.hasMissing = true) :
    isOk (p.fit l) = false ∧
      isOk (p.fit ⟨l.df.impute v, l.target_column, l.sensitive_columns,
        l.time_to_event_column⟩) = true := by
  constructor
  · simp [Plugin.fit, h, isOk]
  · simp [Plugin.fit, impute_no_missing, isOk]

/-- A small dataset with a missing (NaN) cell. -/
def dfMiss : DataFrame :=
  ⟨["age", "sex", "target"], [[some 63, none, some 151], [some 48, some 1, some 75]]⟩

/-- A demo plugin instance, unfitted. -/
def pDemo : Plugin :=
  ⟨"marginal_distributions", "generic", SamplerSpec.constRow [some 50, some 1, some 100], none⟩

/-- A loader wrapping the dataset with missing values. -/
def loaderMiss : DataLoader :=
  ⟨dfMiss, some "target", ["sex"], none⟩

theorem fit_requires_imputed_data_witness :
    isOk (pDemo.fit loaderMiss) = false ∧
      isOk (pDemo.fit ⟨loaderMiss.df.impute 0, loaderMiss.target_column,
        loaderMiss.sensitive_columns, loaderMiss.time_to_event_column⟩) = true :=
  fit_requires_imputed_data pDemo loaderMiss 0 (by decide)

/-- C2: the data returned by `generate` satisfies the training-set
constraints, or, when constraints are provided at generation time, satisfies
those provided constraints on every returned row; when the plugin's raw
output fails to comply with the applicable constraints, `generate` raises an
exception instead of returning non-compliant data. -/
theorem generate_enforces_constraints (p : Plugin) (st : FitState)
    (count : Nat) (cs : Constraints) (hst : p.fitState = some st) :
    (∀ d : DataLoader, p.generate count (some cs) = Except.ok d →
        Constraints.check cs d.df.columns d.df.rows = true) ∧
    (∀ d : DataLoader, p.generate count none = Except.ok d →
        Constraints.check st.schema d.df.columns d.df.rows = true) ∧
    (Constraints.check cs (p._generate count st).columns
        (p._generate count st).rows = false →
      isOk (p.generate count (some cs)) = false) := by
  refine ⟨?_, ?_, ?_⟩
  · intro d hd
    simp only [Plugin.generate, hst, Option.getD_some] at hd
    by_cases hc : Constraints.check cs (p._generate count st).columns
        (p._generate count st).rows = true
    · rw [if_pos hc] at hd
      cases hd
      simpa using hc
    · rw [if_neg hc] at hd
      cases hd
  · intro d hd
    simp only [Plugin.generate, hst, Option.getD_none] at hd
    by_cases hc : Constraints.check st.schema (p._generate count st).columns
        (p._generate count st).rows = true
    · rw [if_pos hc] at hd
      cases hd
      simpa using hc
    · rw [if_neg hc] at hd
      cases hd
  · intro hc
    simp [Plugin.generate, hst, hc, isOk]

/-- The fit state of a demo fitted plugin: one feature "worst radius"
ranging over [10, 30] in the training data. -/
def stDemo : FitState :=
  ⟨["worst radius"],
   ⟨[⟨"worst radius", COp.ge, 10⟩, ⟨"worst radius", COp.le, 30⟩]⟩⟩

/-- A demo plugin already fitted, sampling the constant row [20]. -/
def pFitted : Plugin :=
  ⟨"sdv_ctgan", "debug", SamplerSpec.constRow [some 20], some stDemo⟩

/-- The custom generation constraint of tutorial 1:
("worst radius", ">", 15). -/
def csDemo : Constraints :=
  ⟨[⟨"worst radius", COp.gt, 15⟩]⟩

theorem generate_enforces_constraints_witness :
    (∀ d : DataLoader, pFitted.generate 10 (some csDemo) = Except.ok d →
        Constraints.check csDemo d.df.columns d.df.rows = true) ∧
    (∀ d : DataLoader, pFitted.generate 10 none = Except.ok d →
        Constraints.check stDemo.schema d.df.columns d.df.rows = true) ∧
    (Constraints.check csDemo (pFitted._generate 10 stDemo).columns
        (pFitted._generate 10 stDemo).rows = false →
      isOk (pFitted.generate 10 (some csDemo)) = false) :=
  generate_enforces_constraints pFitted stDemo 10 csDemo rfl

/-- C6: for every fitted plugin, `generate(count)` returns a data loader
whose dataframe contains exactly `count` rows. -/
theorem generate_count_rows (p : Plugin) (count : Nat)
    (cso : Option Constraints) (d : DataLoader)
    (h : p.generate count cso = Except.ok d) : d.df.nrows = count := by
  cases hst : p.fitState with
  | none => simp [Plugin.generate, hst] at h
  | some st =>
    simp only [Plugin.generate, hst] at h
    by_cases hc : Constraints.check (cso.getD st.schema)
        (p._generate count st).columns (p._generate count st).rows = true
    · rw [if_pos hc] at h
      cases h
      simp [DataFrame.nrows, Plugin._generate, rawRows_length]
    · rw [if_neg hc] at h
      cases h

/-- The loader returned by a concrete successful generation. -/
def genResDemo : DataLoader :=
  match pFitted.generate 3 none with
  | Except.ok d => d
  | Except.error _ => ⟨⟨[], []⟩, none, [], none⟩

theorem generate_count_rows_witness : genResDemo.df.nrows = 3 :=
  generate_count_rows pFitted 3 none genResDemo (by rfl)

/-! The plugin registry. -/

theorem lookup_mem : ∀ (r : Registry) (n : String) (c : PluginClass),
    Registry.lookup r n = some c → (n, c) ∈ r := by
  intro r
  induction r with
  | nil => intro n c h; simp [Registry.lookup] at h
  | cons hd rest ih =>
    intro n c h
    obtain ⟨m, d⟩ := hd
    by_cases hmn : m = n
    · subst hmn
      have h' : d = c := by simpa [Registry.lookup] using h
      subst h'
      exact List.mem_cons_self _ _
    · simp only [Registry.lookup, if_neg hmn] at h
      exact List.mem_cons_of_mem _ (ih n c h)

/-- C3: for every name registered in a well-formed registry,
`Plugins().get(name, **kwargs)` returns an instance of the class registered
under that name, and that instance's static `name()` returns the requested
string; moreover, after `generators.add(name, PluginClass)`,
`generators.list()` includes the name and `generators.get(name)` returns an
instance of that class. -/
theorem plugins_get_returns_registered_class (r r' : Registry) (n n' : String)
    (c c' : PluginClass) (kw kw' : Kwargs)
    (hwf : RegistryWF r) (hc : Registry.lookup r n = some c) :
    Registry.get r n kw = Except.ok (c.build kw) ∧
      (c.build kw).pname = n ∧
      (Registry.list (Registry.add r' n' c')).contains n' = true ∧
      Registry.get (Registry.add r' n' c') n' kw' = Except.ok (c'.build kw') := by
  refine ⟨?_, ?_, ?_, ?_⟩
  · simp [Registry.get, hc]
  · have hmem : (n, c) ∈ r := lookup_mem r n c hc
    have hn : n = c.cname := hwf (n, c) hmem
    rw [c.build_name kw, hn]
  · simp [Registry.add, Registry.list]
  · simp [Registry.get, Registry.add, Registry.lookup]

/-- The class registered for the demo plugin instance. -/
def marginalClass : PluginClass :=
  ⟨"marginal_distributions", "generic", [], fun _ => pDemo, fun _ => rfl⟩

/-- A demo registry holding the demo class under its own name. -/
def demoRegistry : Registry :=
  [("marginal_distributions", marginalClass)]

theorem demoRegistry_wf : RegistryWF demoRegistry := by
  intro p hp
  simp only [demoRegistry, List.mem_singleton] at hp
  subst hp
  rfl

theorem plugins_get_returns_registered_class_witness :
    Registry.get demoRegistry "marginal_distributions" [] =
        Except.ok (marginalClass.build []) ∧
      (marginalClass.build []).pname = "marginal_distributions" ∧
      (Registry.list (Registry.add demoRegistry "zero_one" ZeroOnePluginClass)).contains
        "zero_one" = true ∧
      Registry.get (Registry.add demoRegistry "zero_one" ZeroOnePluginClass)
        "zero_one" [] = Except.ok (ZeroOnePluginClass.build []) :=
  plugins_get_returns_registered_class demoRegistry demoRegistry
    "marginal_distributions" "zero_one" marginalClass ZeroOnePluginClass [] []
    demoRegistry_wf rfl

/-- C5: in every tutorial workflow, a plugin is requested by name from the
registry before it is fitted on a data loader, and `generate` is never
invoked on a plugin before `fit` has been called on it. -/
theorem tutorials_fit_before_generate :
    allTutorialTraces.all fitBeforeGenerate = true := by decide

/-- A small dataset with no missing values (diabetes-style columns). -/
def dfClean : DataFrame :=
  ⟨["age", "sex", "target"], [[some 63, some 1, some 151], [some 48, some 0, some 75]]⟩

/-- A survival dataset with duration and event columns (gbsg-style). -/
def dfSurv : DataFrame :=
  ⟨["duration", "event", "x0"], [[some 1814, some 1, some 34], [some 712, some 0, some 40]]⟩

/-- C9: the data-loader constructors accept the keyword arguments exercised
in the tutorials — `target_column` and `sensitive_columns` for
`GenericDataLoader`, plus `time_to_event_column` for
`SurvivalAnalysisDataLoader` — and constructing a loader from a valid
dataframe with these arguments succeeds and records the designated
columns. -/
theorem dataloader_constructors_record_columns (df df' : DataFrame)
    (tc tc' tte : String) (scols : List String)
    (h1 : ((some tc).toList ++ scols).all (fun c => df.columns.contains c) = true)
    (h2 : [tc', tte].all (fun c => df'.columns.contains c) = true) :
    (∃ l : DataLoader, GenericDataLoader df (some tc) scols = Except.ok l ∧
        l.target_column = some tc ∧ l.sensitive_columns = scols) ∧
    (∃ l : DataLoader, SurvivalAnalysisDataLoader df' tc' tte = Except.ok l ∧
        l.target_column = some tc' ∧ l.time_to_event_column = some tte) := by
  constructor
  · refine ⟨⟨df, some tc, scols, none⟩, ?_, rfl, rfl⟩
    simp only [GenericDataLoader, h1, if_true]
  · refine ⟨⟨df', some tc', [], some tte⟩, ?_, rfl, rfl⟩
    simp only [SurvivalAnalysisDataLoader, h2, if_true]

theorem dataloader_constructors_record_columns_witness :
    (∃ l : DataLoader, GenericDataLoader dfClean (some "target") ["sex"] =
        Except.ok l ∧ l.target_column = some "target" ∧
        l.sensitive_columns = ["sex"]) ∧
    (∃ l : DataLoader, SurvivalAnalysisDataLoader dfSurv "event" "duration" =
        Except.ok l ∧ l.target_column = some "event" ∧
        l.time_to_event_column = some "duration") :=
  dataloader_constructors_record_columns dfClean dfSurv "target" "event"
    "duration" ["sex"] (by decide) (by decide)

/-! Benchmark evaluation. -/

theorem fit_ok_eq (p : Plugin) (l : DataLoader) (q : Plugin)
    (h : p.fit l = Except.ok q) : q = p._fit l := by
  simp only [Plugin.fit] at h
  by_cases hm : l.df.hasMissing = true
  · rw [if_pos hm] at h
    cases h
  · rw [if_neg hm] at h
    cases h
    rfl

theorem get_ok_pname (r : Registry) (hwf : RegistryWF r) (n : String)
    (kw : Kwargs) (p : Plugin) (h : Registry.get r n kw = Except.ok p) :
    p.pname = n := by
  simp only [Registry.get] at h
  cases hl : Registry.lookup r n with
  | none =>
    rw [hl] at h
    cases h
  | some c =>
    rw [hl] at h
    cases h
    have hmem := lookup_mem r n c hl
    have hn : n = c.cname := hwf (n, c) hmem
    rw [c.build_name kw, ← hn]

theorem evaluate_ok_shape (r : Registry) (l : DataLoader) (ss reps : Nat) :
    ∀ (tests : List (String × String × Kwargs))
      (res : List (String × BenchReport)),
      Benchmarks.evaluate r tests l ss reps = Except.ok res →
      res.map Prod.fst = tests.map (fun t => t.1) ∧
      res.length = tests.length ∧
      (∀ e ∈ res, e.2.metrics = benchmarkMetrics ∧
        e.2.plugin.fitState.isSome = true)
  | [], res, h => by
    simp only [Benchmarks.evaluate] at h
    cases h
    simp
  | (label, pn, kw) :: rest, res, h => by
    simp only [Benchmarks.evaluate] at h
    cases hg : Registry.get r pn kw with
    | error e =>
      simp only [hg] at h
      cases h
    | ok p =>
      simp only [hg] at h
      cases hf : p.fit l with
      | error e =>
        simp only [hf] at h
        cases h
      | ok fitted =>
        simp only [hf] at h
        cases ht : Benchmarks.evaluate r rest l ss reps with
        | error e =>
          simp only [ht] at h
          cases h
        | ok tail =>
          simp only [ht] at h
          cases h
          obtain ⟨ih1, ih2, ih3⟩ := evaluate_ok_shape r l ss reps rest tail ht
          refine ⟨?_, ?_, ?_⟩
          · simp [ih1]
          · simp [ih2]
          · intro e he
            rcases List.mem_cons.mp he with he1 | he2
            · subst he1
              refine ⟨rfl, ?_⟩
              have hq := fit_ok_eq p l fitted hf
              subst hq
              rfl
            · exact ih3 e he2

theorem evaluate_ok_pnames (r : Registry) (hwf : RegistryWF r)
    (l : DataLoader) (ss reps : Nat) :
    ∀ (tests : List (String × String × Kwargs))
      (res : List (String × BenchReport)),
      Benchmarks.evaluate r tests l ss reps = Except.ok res →
      res.map (fun e => e.2.plugin.pname) = tests.map (fun t => t.2.1)
  | [], res, h => by
    simp only [Benchmarks.evaluate] at h
    cases h
    simp
  | (label, pn, kw) :: rest, res, h => by
    simp only [Benchmarks.evaluate] at h
    cases hg : Registry.get r pn kw with
    | error e =>
      simp only [hg] at h
      cases h
    | ok p =>
      simp only [hg] at h
      cases hf : p.fit l with
      | error e =>
        simp only [hf] at h
        cases h
      | ok fitted =>
        simp only [hf] at h
        cases ht : Benchmarks.evaluate r rest l ss reps with
        | error e =>
          simp only [ht] at h
          cases h
        | ok tail =>
          simp only [ht] at h
          cases h
          have ih := evaluate_ok_pnames r hwf l ss reps rest tail ht
          have hq := fit_ok_eq p l fitted hf
          subst hq
          have hp : p.pname = pn := get_ok_pname r hwf pn kw p hg
          simp [ih, Plugin._fit, hp]

/-- C4: `Benchmarks.evaluate` accepts a list of (label, plugin-name, kwargs)
tuples together with a data loader (plus `synthetic_size` and `repeats`),
fits each named plugin configured with its kwargs, and returns a score
report containing one entry per supplied label. -/
theorem benchmarks_evaluate_report (r : Registry)
    (tests : List (String × String × Kwargs)) (l : DataLoader)
    (ss reps : Nat) (res : List (String × BenchReport))
    (hwf : RegistryWF r)
    (h : Benchmarks.evaluate r tests l ss reps = Except.ok res) :
    res.map Prod.fst = tests.map (fun t => t.1) ∧
      res.map (fun e => e.2.plugin.pname) = tests.map (fun t => t.2.1) ∧
      ∀ e ∈ res, e.2.plugin.fitState.isSome = true := by
  obtain ⟨h1, _, h3⟩ := evaluate_ok_shape r l ss reps tests res h
  exact ⟨h1, evaluate_ok_pnames r hwf l ss reps tests res h,
    fun e he => (h3 e he).2⟩

/-- The benchmark test tuples of the demo run. -/
def testsDemo : List (String × String × Kwargs) :=
  [("marginal_distributions", "marginal_distributions", []),
   ("dummy_sampler", "marginal_distributions", [])]

/-- A loader over the clean demo dataset. -/
def loaderClean : DataLoader :=
  ⟨dfClean, some "target", ["sex"], none⟩

/-- The score report of the concrete demo benchmark run. -/
def benchResDemo : List (String × BenchReport) :=
  match Benchmarks.evaluate demoRegistry testsDemo loaderClean 1000 2 with
  | Except.ok res => res
  | Except.error _ => []

theorem benchmarks_evaluate_report_witness :
    benchResDemo.map Prod.fst = testsDemo.map (fun t => t.1) ∧
      benchResDemo.map (fun e => e.2.plugin.pname) =
        testsDemo.map (fun t => t.2.1) ∧
      ∀ e ∈ benchResDemo, e.2.plugin.fitState.isSome = true :=
  benchmarks_evaluate_report demoRegistry testsDemo loaderClean 1000 2
    benchResDemo demoRegistry_wf (by rfl)

/-- C10: a benchmark run fits one plugin per supplied test and its report's
metrics span all five categories: sanity, statistical fidelity (stats),
downstream performance, detection, and privacy. -/
theorem benchmark_report_spans_categories (r : Registry)
    (tests : List (String × String × Kwargs)) (l : DataLoader)
    (ss reps : Nat) (res : List (String × BenchReport))
    (h : Benchmarks.evaluate r tests l ss reps = Except.ok res) :
    res.length = tests.length ∧
      ∀ e ∈ res, ∀ cat : Category,
        e.2.metrics.any (fun m => decide (m.1 = cat)) = true := by
  obtain ⟨_, h2, h3⟩ := evaluate_ok_shape r l ss reps tests res h
  refine ⟨h2, ?_⟩
  intro e he cat
  rw [(h3 e he).1]
  cases cat <;> decide

theorem benchmark_report_spans_categories_witness :
    benchResDemo.length = testsDemo.length ∧
      ∀ e ∈ benchResDemo, ∀ cat : Category,
        e.2.metrics.any (fun m => decide (m.1 = cat)) = true :=
  benchmark_report_spans_categories demoRegistry testsDemo loaderClean 1000 2
    benchResDemo (by rfl)

/-- C8: a plugin class must provide the static methods
`hyperparameter_space()`, `type()` and `name()` together with the internal
`_fit` (invoked by the public `fit` on each training set) and `_generate`
(invoked by the public `generate`); the tutorial's `ZeroOnePlugin` example
provides exactly these, satisfies the plugin interface, and can be
registered and used. -/
theorem zero_one_plugin_satisfies_interface (r : Registry) (kw : Kwargs)
    (l : DataLoader) (hclean : l.df.hasMissing = false) :
    ZeroOnePluginClass.cname = "zero_one" ∧
      ZeroOnePluginClass.ctype = "debug" ∧
      ZeroOnePluginClass.hyperparameter_space = [] ∧
      (Registry.list (Registry.add r "zero_one" ZeroOnePluginClass)).contains
        "zero_one" = true ∧
      Registry.get (Registry.add r "zero_one" ZeroOnePluginClass) "zero_one" kw =
        Except.ok (ZeroOnePluginClass.build kw) ∧
      (ZeroOnePluginClass.build kw).fit l =
        Except.ok ((ZeroOnePluginClass.build kw)._fit l) ∧
      ((ZeroOnePluginClass.build kw)._fit l).fitState =
        some ⟨l.df.columns, trainConstraints l.df⟩ := by
  refine ⟨rfl, rfl, rfl, ?_, ?_, ?_, rfl⟩
  · simp [Registry.add, Registry.list]
  · simp [Registry.get, Registry.add, Registry.lookup]
  · simp only [Plugin.fit]
    rw [if_neg]
    simp [hclean]

theorem zero_one_plugin_satisfies_interface_witness :
    ZeroOnePluginClass.cname = "zero_one" ∧
      ZeroOnePluginClass.ctype = "debug" ∧
      ZeroOnePluginClass.hyperparameter_space = [] ∧
      (Registry.list (Registry.add [] "zero_one" ZeroOnePluginClass)).contains
        "zero_one" = true ∧
      Registry.get (Registry.add [] "zero_one" ZeroOnePluginClass) "zero_one" [] =
        Except.ok (ZeroOnePluginClass.build []) ∧
      (ZeroOnePluginClass.build []).fit loaderClean =
        Except.ok ((ZeroOnePluginClass.build [])._fit loaderClean) ∧
      ((ZeroOnePluginClass.build [])._fit loaderClean).fitState =
        some ⟨loaderClean.df.columns, trainConstraints loaderClean.df⟩ :=
  zero_one_plugin_satisfies_interface [] [] loaderClean (by decide)

end Synthcity
